import Mathlib

/-!
Verification of the ePaper smart-dashboard display client
(`home-dashboard`, firmware sketch): a shallow embedding of the
wake/refresh/sleep control loop, the HTTP image download, and the
indexed-PNG scanline decoder, together with proofs of the spec's
testable properties.

Machine integers from the source (`int`, `unsigned long`, `size_t`,
`uint8_t`) are embedded as `Int`/`Nat`; all values involved stay far
below any overflow boundary on the valid input ranges stated in the
theorems, so no wrap-around modelling is required except where noted.
-/

namespace HomeDashboard

/-! ## Configuration constants (from the sketch's CONFIGURATION block) -/

def DEEP_SLEEP_START_HOUR : Int := 0
def DEEP_SLEEP_END_HOUR : Int := 5
def DISPLAY_WIDTH : Nat := 800
def DISPLAY_HEIGHT : Nat := 480
def HTTP_CODE_OK : Int := 200

/-! ## Time utilities (`isDeepSleepTime`, `getSecondsUntil5AM`) -/

/-- Body of `isDeepSleepTime`, generalised over the configured window
`[start, stop)`; the source reads the two configuration constants where
this takes `start` and `stop` as arguments. -/
def isDeepSleepTimeWith (start stop hour : Int) : Bool :=
  decide (hour ≥ start) && decide (hour < stop)

/-- `isDeepSleepTime(hour)`: `hour >= DEEP_SLEEP_START_HOUR && hour < DEEP_SLEEP_END_HOUR`. -/
def isDeepSleepTime (hour : Int) : Bool :=
  isDeepSleepTimeWith DEEP_SLEEP_START_HOUR DEEP_SLEEP_END_HOUR hour

/-- `getSecondsUntil5AM(currentHour, currentMinute)`: hours to the window
end (same day when before it, across midnight otherwise), converted to
seconds, minus the current minutes, plus a fixed 120-second buffer. -/
def getSecondsUntil5AM (currentHour currentMinute : Int) : Int :=
  let hoursUntil5AM : Int :=
    if currentHour < DEEP_SLEEP_END_HOUR then
      DEEP_SLEEP_END_HOUR - currentHour
    else
      (24 - currentHour) + DEEP_SLEEP_END_HOUR
  hoursUntil5AM * 3600 - currentMinute * 60 + 120

/-- Spec-side notion for the monotonicity claim: minutes of wall-clock
time elapsed since the most recent 5:00 AM (so it increases as the clock
advances toward the next 5:00 AM and wraps across midnight). -/
def minutesPast5AM (hour minute : Int) : Int :=
  if hour < 5 then hour * 60 + minute + 1140 else hour * 60 + minute - 300

/-! ## PNG scanline decoding (`pngDrawCallback`)

A scanline as handed to the callback by the PNG decoder: the row `y`,
the line width, whether the pixel format is indexed (`iPixelType ==
PNG_PIXEL_INDEXED`), the packed pixel bytes, the flat RGB palette bytes
(`none` models a null palette pointer), and the bit depth `iBpp`.
Bytes are `Nat` values; the `uint8_t` arrays of the source guarantee
each is below 256, which theorems carry as a hypothesis. -/

inductive EpdColor where
  | white
  | black
deriving DecidableEq, Repr

structure PNGDrawLine where
  y : Nat
  iWidth : Nat
  indexedPixelType : Bool
  pixels : List Nat
  palette : Option (List Nat)
  iBpp : Nat
deriving DecidableEq, Repr

/-- A `display.drawPixel(x, y, color)` call recorded by the callback. -/
structure DrawOp where
  x : Nat
  y : Nat
  color : EpdColor
deriving DecidableEq, Repr

/-- Palette-index extraction of `pngDrawCallback`: branch on the bit
depth exactly as the source's `if (bpp == 8) ... else if (bpp == 4)
... else if (bpp == 2) ... else ...` chain does. Out-of-range byte
reads default to 0 (the theorems only use in-range reads). -/
def extractPaletteIndex (bpp : Nat) (pixels : List Nat) (x : Nat) : Nat :=
  if bpp = 8 then
    pixels.getD x 0
  else if bpp = 4 then
    let byteIndex := x / 2
    let pixelInByte := x % 2
    (pixels.getD byteIndex 0 >>> (if pixelInByte = 0 then 4 else 0)) &&& 0x0F
  else if bpp = 2 then
    let byteIndex := x / 4
    let pixelInByte := x % 4
    (pixels.getD byteIndex 0 >>> (6 - pixelInByte * 2)) &&& 0x03
  else
    let byteIndex := x / 8
    let bitInByte := x % 8
    (pixels.getD byteIndex 0 >>> (7 - bitInByte)) &&& 0x01

/-- Palette lookup and luminosity threshold of `pngDrawCallback`:
read the RGB triple at `paletteIndex`, compute
`brightness = (r*299 + g*587 + b*114) / 1000`, white iff above 127. -/
def paletteColor (pal : List Nat) (paletteIndex : Nat) : EpdColor :=
  let r := pal.getD (paletteIndex * 3) 0
  let g := pal.getD (paletteIndex * 3 + 1) 0
  let b := pal.getD (paletteIndex * 3 + 2) 0
  let brightness := (r * 299 + g * 587 + b * 114) / 1000
  if brightness > 127 then EpdColor.white else EpdColor.black

/-- The guarded colour choice: the source checks
`palette != nullptr && paletteIndex < 256`, defaulting to white. -/
def pixelColor (palette : Option (List Nat)) (paletteIndex : Nat) : EpdColor :=
  match palette with
  | some pal => if paletteIndex < 256 then paletteColor pal paletteIndex else EpdColor.white
  | none => EpdColor.white

/-- `pngDrawCallback(pDraw)`: rejects non-indexed pixel formats
(returns 0, no draws); otherwise, for each `x` with `x < width` and
`x < DISPLAY_WIDTH`, extracts the palette index, maps it through the
palette/luminosity threshold, and draws at `(x, y)` when
`y < DISPLAY_HEIGHT` (the loop bound already enforces
`x < DISPLAY_WIDTH`); returns 1. -/
def pngDrawCallback (pDraw : PNGDrawLine) : Nat × List DrawOp :=
  if !pDraw.indexedPixelType then
    (0, [])
  else
    let ops := (List.range (min pDraw.iWidth DISPLAY_WIDTH)).filterMap fun x =>
      let paletteIndex := extractPaletteIndex pDraw.iBpp pDraw.pixels x
      let color := pixelColor pDraw.palette paletteIndex
      if pDraw.y < DISPLAY_HEIGHT then some ⟨x, pDraw.y, color⟩ else none
    (1, ops)

/-! Spec-side formulations for the decoder claim. -/

/-- Modelling the claim's words: a palette given as RGB triples,
flattened to the byte layout the source indexes into. -/
def flattenPalette : List (Nat × Nat × Nat) → List Nat
  | [] => []
  | (r, g, b) :: rest => r :: g :: b :: flattenPalette rest

/-- The claim's packing rule, stated generically: pixel `x` at bit
depth `bpp` occupies the `bpp` bits of byte `x*bpp/8` starting
`(x*bpp) % 8` bits below the most significant bit. -/
def msbFirstIndex (bpp : Nat) (pixels : List Nat) (x : Nat) : Nat :=
  pixels.getD (x * bpp / 8) 0 / 2 ^ (8 - bpp - x * bpp % 8) % 2 ^ bpp

/-- The claim's colour rule on a palette of triples:
`L = (299·R + 587·G + 114·B) / 1000`, light iff `L > 127`. -/
def luminosityColor (pal : List (Nat × Nat × Nat)) (idx : Nat) : EpdColor :=
  let t := pal.getD idx (0, 0, 0)
  if (299 * t.1 + 587 * t.2.1 + 114 * t.2.2) / 1000 > 127 then
    EpdColor.white
  else
    EpdColor.black

/-! ## Device state and the download / refresh / sleep operations

The sketch's mutable globals relevant to the claims, passed explicitly.
`pngBuffer = some n` models a live `malloc`ed buffer of `n` bytes,
`none` models the null pointer. Two observation fields record facts the
claims talk about: `lastRenderUsedPartialRefresh` is the window mode of
the most recent render (`display.setPartialWindow` vs
`display.setFullWindow`), and `freedNullBuffer` is raised if a `free`
site ever executes while `pngBuffer` is already null (the double-free
hazard; it never fires). -/

structure DeviceState where
  timeInitialized : Bool
  displayInitialized : Bool
  pngBuffer : Option Nat
  pngBufferSize : Nat
  lastRenderUsedPartialRefresh : Option Bool
  freedNullBuffer : Bool
deriving DecidableEq, Repr

/-- Cold-boot values of the RTC globals (`= false`, null buffer). -/
def initialState : DeviceState :=
  { timeInitialized := false
    displayInitialized := false
    pngBuffer := none
    pngBufferSize := 0
    lastRenderUsedPartialRefresh := none
    freedNullBuffer := false }

/-- The `free(pngBuffer); pngBuffer = nullptr; pngBufferSize = 0;`
sequence that both `downloadPNG` and `updateDisplay` perform. -/
def freeBuffer (s : DeviceState) : DeviceState :=
  { s with
    freedNullBuffer := s.freedNullBuffer || s.pngBuffer.isNone
    pngBuffer := none
    pngBufferSize := 0 }

/-- One HTTP exchange as `downloadPNG` observes it: the status code of
`http.GET()`, the declared `http.getSize()` content length, whether
`malloc` succeeds, and how many body bytes the stream yields before the
connection drops. -/
structure HttpResponse where
  httpCode : Int
  contentLength : Int
  mallocOk : Bool
  delivered : Nat
deriving DecidableEq, Repr

/-- Result of `downloadPNG`: its boolean return, the device state
after it, and an observation of whether a buffer was allocated. -/
structure DownloadResult where
  ok : Bool
  state : DeviceState
  allocated : Bool
deriving DecidableEq, Repr

/-- `downloadPNG()`: fail on a non-200 status; reject a declared length
`<= 0` or `> 150000` before allocating; allocate a buffer of exactly
the declared length; read available chunks while connected and short of
the declared length (net effect: `bytesRead = min delivered length`);
on a short read free the buffer, null the pointer, zero the size and
fail; otherwise succeed with the buffer held in the state. -/
def downloadPNG (resp : HttpResponse) (s : DeviceState) : DownloadResult :=
  if resp.httpCode ≠ HTTP_CODE_OK then
    ⟨false, s, false⟩
  else if resp.contentLength ≤ 0 || resp.contentLength > 150000 then
    ⟨false, s, false⟩
  else if !resp.mallocOk then
    ⟨false, s, false⟩
  else
    let contentLength := resp.contentLength.toNat
    let s1 := { s with pngBuffer := some contentLength, pngBufferSize := contentLength }
    let bytesRead := min resp.delivered contentLength
    if bytesRead ≠ contentLength then
      ⟨false, freeBuffer s1, true⟩
    else
      ⟨true, s1, true⟩

/-- `updateDisplay(usePartialRefresh)`: bail out when there is no image
data; otherwise select the partial or full window, page the decode
through the panel, then free the buffer and reset pointer and size. -/
def updateDisplay (usePartialRefresh : Bool) (s : DeviceState) : DeviceState :=
  if s.pngBuffer = none ∨ s.pngBufferSize = 0 then
    s
  else
    { freeBuffer s with lastRenderUsedPartialRefresh := some usePartialRefresh }

/-- Environment of one download attempt inside `refreshDashboard`:
whether `WiFi.status()` already reports connected, whether
`connectWiFi()` would succeed, and the HTTP exchange. -/
structure AttemptEnv where
  wifiAlreadyConnected : Bool
  connectOk : Bool
  resp : HttpResponse
deriving DecidableEq, Repr

/-- One iteration of `refreshDashboard`'s retry loop:
`wifiConnected = (WiFi.status() == WL_CONNECTED) || connectWiFi()`;
on `wifiConnected && downloadPNG()` render and return true. -/
def refreshAttempt (env : AttemptEnv) (usePartialRefresh : Bool) (s : DeviceState) :
    Bool × DeviceState :=
  if env.wifiAlreadyConnected || env.connectOk then
    let r := downloadPNG env.resp s
    if r.ok then (true, updateDisplay usePartialRefresh r.state)
    else (false, r.state)
  else
    (false, s)

/-- `refreshDashboard()`: latch `usePartial = displayInitialized`, then
up to two attempts. -/
def refreshDashboard (e1 e2 : AttemptEnv) (s : DeviceState) : Bool × DeviceState :=
  let usePartialRefresh := s.displayInitialized
  let r1 := refreshAttempt e1 usePartialRefresh s
  if r1.1 then r1
  else refreshAttempt e2 usePartialRefresh r1.2

/-! ## The sleep transitions and the main loop -/

structure TimeOfDay where
  hour : Int
  minute : Int
deriving DecidableEq, Repr

/-- `shouldEnterDeepSleep()`: gate on `isDeepSleepTime` when
`getLocalTime` succeeds; a failed clock read yields `false`. -/
def shouldEnterDeepSleep (timeRead : Option TimeOfDay) : Bool :=
  match timeRead with
  | some t => isDeepSleepTime t.hour
  | none => false

/-- How a refresh cycle ends: a deep-sleep suspend (device resets on
wake), a light-sleep suspend that woke normally (loop continues with
the carried state), or an `ESP.restart()`. -/
inductive CycleEnd where
  | deepSleep (seconds : Int) (s : DeviceState)
  | lightSleep (s : DeviceState)
  | restart (s : DeviceState)
deriving DecidableEq, Repr

def CycleEnd.stateOf : CycleEnd → DeviceState
  | .deepSleep _ s => s
  | .lightSleep s => s
  | .restart s => s

def CycleEnd.isDeepSleep : CycleEnd → Bool
  | .deepSleep _ _ => true
  | _ => false

def CycleEnd.isLightSleep : CycleEnd → Bool
  | .lightSleep _ => true
  | _ => false

def CycleEnd.isRestart : CycleEnd → Bool
  | .restart _ => true
  | _ => false

/-- `enterDeepSleep(seconds)`: shuts down WiFi and the panel, clears
`displayInitialized` and `timeInitialized`, arms the wake timer — the
source never checks the result of `esp_sleep_enable_timer_wakeup`, so
`timerArmOk` is taken and ignored — and suspends; never returns. -/
def enterDeepSleep (seconds : Int) (_timerArmOk : Bool) (s : DeviceState) : CycleEnd :=
  CycleEnd.deepSleep seconds
    { s with displayInitialized := false, timeInitialized := false }

/-- `enterLightSleep()`: arms the wake timer; on arming failure delays
and calls `ESP.restart()` without sleeping; otherwise suspends, and a
failed `esp_light_sleep_start` also ends in `ESP.restart()`. -/
def enterLightSleep (timerArmOk lightSleepOk : Bool) (s : DeviceState) : CycleEnd :=
  if !timerArmOk then CycleEnd.restart s
  else if lightSleepOk then CycleEnd.lightSleep s
  else CycleEnd.restart s

/-- Inputs one pass of `loop()` consumes: the two `getLocalTime` reads
(gate and sleep-duration), the debounced refresh-button edge together
with the attempt environments its `handleButtonPress` refresh would
use, the two attempt environments of the scheduled refresh, and the
sleep-hardware outcomes. -/
structure CycleEnv where
  timeRead1 : Option TimeOfDay
  timeRead2 : Option TimeOfDay
  refreshButtonEdge : Bool
  buttonAttempt1 : AttemptEnv
  buttonAttempt2 : AttemptEnv
  attempt1 : AttemptEnv
  attempt2 : AttemptEnv
  deepTimerArmOk : Bool
  lightTimerArmOk : Bool
  lightSleepOk : Bool
deriving DecidableEq, Repr

/-- One pass of `loop()`: handle a pending refresh-button press (which
runs `refreshDashboard`), evaluate the deep-sleep gate and, when it
holds and the second clock read succeeds, enter deep sleep for
`getSecondsUntil5AM`; otherwise refresh the dashboard and enter light
sleep. -/
def loopStep (env : CycleEnv) (s : DeviceState) : CycleEnd :=
  let s0 :=
    if env.refreshButtonEdge then
      (refreshDashboard env.buttonAttempt1 env.buttonAttempt2 s).2
    else s
  if shouldEnterDeepSleep env.timeRead1 then
    match env.timeRead2 with
    | some t =>
        enterDeepSleep (getSecondsUntil5AM t.hour t.minute) env.deepTimerArmOk s0
    | none =>
        enterLightSleep env.lightTimerArmOk env.lightSleepOk
          (refreshDashboard env.attempt1 env.attempt2 s0).2
  else
    enterLightSleep env.lightTimerArmOk env.lightSleepOk
      (refreshDashboard env.attempt1 env.attempt2 s0).2

/-! ## Concrete scenario environments -/

/-- An attempt with no network available at all. -/
def idleAttempt : AttemptEnv := ⟨false, false, ⟨0, 0, false, 0⟩⟩

/-- An attempt in which WiFi is already up and the server serves a
100-byte image completely. -/
def goodAttempt : AttemptEnv := ⟨true, true, ⟨200, 100, true, 100⟩⟩

/-- A cycle at 02:30 local time with all hardware cooperating. -/
def wake0230Env : CycleEnv :=
  ⟨some ⟨2, 30⟩, some ⟨2, 30⟩, false, idleAttempt, idleAttempt,
   idleAttempt, idleAttempt, true, true, true⟩

/-- A daytime cycle at 14:00 with a successful download and a
successful light sleep. -/
def day1400Env : CycleEnv :=
  ⟨some ⟨14, 0⟩, some ⟨14, 0⟩, false, idleAttempt, idleAttempt,
   goodAttempt, goodAttempt, true, true, true⟩

/-! ## Helper lemmas -/

lemma filterMap_some_eq_map {α β : Type} (g : α → β) (l : List α) :
    l.filterMap (fun a => some (g a)) = l.map g := by
  induction l with
  | nil => rfl
  | cons a l ih => simp [List.filterMap_cons, ih]

lemma filterMap_none_eq_nil {α β : Type} (l : List α) :
    l.filterMap (fun _ => (none : Option β)) = [] := by
  induction l with
  | nil => rfl
  | cons a l ih => simp [List.filterMap_cons, ih]

lemma getD_lt_256 (pixels : List Nat) (hpix : ∀ b ∈ pixels, b < 256) (i : Nat) :
    pixels.getD i 0 < 256 := by
  induction pixels generalizing i with
  | nil => simp [List.getD]
  | cons a l ih =>
    cases i with
    | zero => exact hpix a (by simp)
    | succ n =>
      exact ih (fun b hb => hpix b (by simp [hb])) n

lemma msbFirstIndex_lt (bpp : Nat) (pixels : List Nat) (x : Nat) :
    msbFirstIndex bpp pixels x < 2 ^ bpp :=
  Nat.mod_lt _ (Nat.pos_pow_of_pos bpp (by omega))

/-- The source's per-depth index extraction agrees with the generic
MSB-first packing rule on byte arrays. -/
lemma extractPaletteIndex_eq_msbFirst (bpp : Nat) (pixels : List Nat) (x : Nat)
    (hb : bpp = 1 ∨ bpp = 2 ∨ bpp = 4 ∨ bpp = 8)
    (hpix : ∀ b ∈ pixels, b < 256) :
    extractPaletteIndex bpp pixels x = msbFirstIndex bpp pixels x := by
  have hbyte : ∀ i, pixels.getD i 0 < 256 := getD_lt_256 pixels hpix
  rcases hb with h | h | h | h <;> subst h
  · -- bpp = 1
    have hi : x * 1 / 8 = x / 8 := by omega
    have hs : 8 - 1 - x * 1 % 8 = 7 - x % 8 := by omega
    simp only [extractPaletteIndex, msbFirstIndex, hi, hs]
    norm_num
    rw [Nat.shiftRight_eq_div_pow]
  · -- bpp = 2
    have hi : x * 2 / 8 = x / 4 := by omega
    have hs : 8 - 2 - x * 2 % 8 = 6 - x % 4 * 2 := by omega
    simp only [extractPaletteIndex, msbFirstIndex, hi, hs]
    norm_num
    rw [Nat.shiftRight_eq_div_pow,
      show (3 : Nat) = 2 ^ 2 - 1 from rfl,
      Nat.and_pow_two_sub_one_eq_mod]
  · -- bpp = 4
    have hi : x * 4 / 8 = x / 2 := by omega
    rcases Nat.mod_two_eq_zero_or_one x with h2 | h2
    · have hs : 8 - 4 - x * 4 % 8 = 4 := by omega
      simp only [extractPaletteIndex, msbFirstIndex, hi, hs, h2]
      norm_num
      rw [Nat.shiftRight_eq_div_pow,
        show (15 : Nat) = 2 ^ 4 - 1 from rfl,
        Nat.and_pow_two_sub_one_eq_mod]
    · have hs : 8 - 4 - x * 4 % 8 = 0 := by omega
      simp only [extractPaletteIndex, msbFirstIndex, hi, hs, h2]
      norm_num
      rw [show (15 : Nat) = 2 ^ 4 - 1 from rfl, Nat.and_pow_two_sub_one_eq_mod]
  · -- bpp = 8
    have hi : x * 8 / 8 = x := by omega
    have hs : 8 - 8 - x * 8 % 8 = 0 := by omega
    simp only [extractPaletteIndex, msbFirstIndex, hi, hs]
    norm_num
    have hb2 := hbyte x
    simp only [List.getD_eq_getElem?_getD] at hb2 ⊢
    omega

lemma flattenPalette_getD (pal : List (Nat × Nat × Nat)) (i : Nat) (h : i < pal.length) :
    (flattenPalette pal).getD (i * 3) 0 = (pal.getD i (0, 0, 0)).1
    ∧ (flattenPalette pal).getD (i * 3 + 1) 0 = (pal.getD i (0, 0, 0)).2.1
    ∧ (flattenPalette pal).getD (i * 3 + 2) 0 = (pal.getD i (0, 0, 0)).2.2 := by
  induction pal generalizing i with
  | nil => simp at h
  | cons t rest ih =>
    obtain ⟨r, g, b⟩ := t
    cases i with
    | zero => simp [flattenPalette, List.getD]
    | succ n =>
      have hn : n < rest.length := by simpa using h
      have e1 : (n + 1) * 3 = n * 3 + 3 := by ring
      have hflat : flattenPalette ((r, g, b) :: rest) = r :: g :: b :: flattenPalette rest := rfl
      refine ⟨?_, ?_, ?_⟩
      · simpa only [hflat, e1, List.getD_cons_succ] using (ih n hn).1
      · simpa only [hflat, e1, List.getD_cons_succ] using (ih n hn).2.1
      · simpa only [hflat, e1, List.getD_cons_succ] using (ih n hn).2.2

lemma downloadPNG_displayInitialized (resp : HttpResponse) (s : DeviceState) :
    (downloadPNG resp s).state.displayInitialized = s.displayInitialized := by
  simp only [downloadPNG, freeBuffer]
  split_ifs <;> rfl

lemma updateDisplay_displayInitialized (p : Bool) (s : DeviceState) :
    (updateDisplay p s).displayInitialized = s.displayInitialized := by
  simp only [updateDisplay, freeBuffer]
  split_ifs <;> rfl

lemma refreshAttempt_displayInitialized (env : AttemptEnv) (p : Bool) (s : DeviceState) :
    (refreshAttempt env p s).2.displayInitialized = s.displayInitialized := by
  simp only [refreshAttempt]
  split_ifs <;>
    simp [updateDisplay_displayInitialized, downloadPNG_displayInitialized]

lemma refreshDashboard_displayInitialized (e1 e2 : AttemptEnv) (s : DeviceState) :
    (refreshDashboard e1 e2 s).2.displayInitialized = s.displayInitialized := by
  simp only [refreshDashboard]
  split_ifs <;>
    simp [refreshAttempt_displayInitialized]

lemma enterLightSleep_stateOf (a b : Bool) (s : DeviceState) :
    (enterLightSleep a b s).stateOf = s := by
  unfold enterLightSleep
  split_ifs <;> rfl

/-- Whatever the download outcome, a state whose buffer was empty on
entry leaves `downloadPNG` with either the fresh buffer (on success)
or an empty buffer again, never having freed a null pointer. -/
lemma downloadPNG_buffer (resp : HttpResponse) (s : DeviceState)
    (h1 : s.pngBuffer = none) (h2 : s.pngBufferSize = 0) (h3 : s.freedNullBuffer = false) :
    ((downloadPNG resp s).ok = true →
       (downloadPNG resp s).state.pngBuffer = some resp.contentLength.toNat
       ∧ (downloadPNG resp s).state.pngBufferSize = resp.contentLength.toNat
       ∧ 0 < resp.contentLength.toNat
       ∧ (downloadPNG resp s).state.freedNullBuffer = false)
    ∧ ((downloadPNG resp s).ok = false →
       (downloadPNG resp s).state.pngBuffer = none
       ∧ (downloadPNG resp s).state.pngBufferSize = 0
       ∧ (downloadPNG resp s).state.freedNullBuffer = false) := by
  simp only [downloadPNG, freeBuffer]
  split_ifs with hA hB hC hD
  · simp [h1, h2, h3]
  · simp [h1, h2, h3]
  · simp [h1, h2, h3]
  · simp [h3]
  · simp only [Bool.or_eq_true, decide_eq_true_eq, not_or, not_le] at hB
    simp [h3]
    omega

lemma refreshAttempt_buffer (env : AttemptEnv) (p : Bool) (s : DeviceState)
    (h1 : s.pngBuffer = none) (h2 : s.pngBufferSize = 0) (h3 : s.freedNullBuffer = false) :
    (refreshAttempt env p s).2.pngBuffer = none
    ∧ (refreshAttempt env p s).2.pngBufferSize = 0
    ∧ (refreshAttempt env p s).2.freedNullBuffer = false := by
  have hdl := downloadPNG_buffer env.resp s h1 h2 h3
  simp only [refreshAttempt]
  split_ifs with hW hOk
  · -- WiFi up, download succeeded: the post-render free empties the buffer
    obtain ⟨hbuf, hsize, hpos, hfree⟩ := hdl.1 hOk
    simp only [updateDisplay, freeBuffer, hbuf, hsize]
    have hguard : ¬(some env.resp.contentLength.toNat = none
        ∨ env.resp.contentLength.toNat = 0) := by
      simp
      omega
    rw [if_neg hguard]
    simp [hfree]
  · -- WiFi up, download failed: `downloadPNG` already emptied the buffer
    exact hdl.2 (by simpa using hOk)
  · exact ⟨h1, h2, h3⟩

lemma refreshDashboard_buffer (e1 e2 : AttemptEnv) (s : DeviceState)
    (h1 : s.pngBuffer = none) (h2 : s.pngBufferSize = 0) (h3 : s.freedNullBuffer = false) :
    (refreshDashboard e1 e2 s).2.pngBuffer = none
    ∧ (refreshDashboard e1 e2 s).2.pngBufferSize = 0
    ∧ (refreshDashboard e1 e2 s).2.freedNullBuffer = false := by
  have ha1 := refreshAttempt_buffer e1 s.displayInitialized s h1 h2 h3
  simp only [refreshDashboard]
  split_ifs with hOk
  · exact ha1
  · exact refreshAttempt_buffer e2 s.displayInitialized _ ha1.1 ha1.2.1 ha1.2.2

lemma updateDisplay_idem (p q : Bool) (t : DeviceState) :
    updateDisplay q (updateDisplay p t) = updateDisplay p t := by
  by_cases hg : t.pngBuffer = none ∨ t.pngBufferSize = 0
  · simp only [updateDisplay, if_pos hg]
  · simp only [updateDisplay, if_neg hg, freeBuffer]
    simp

lemma updateDisplay_freedNull (p : Bool) (t : DeviceState) :
    (updateDisplay p t).freedNullBuffer = t.freedNullBuffer := by
  by_cases hg : t.pngBuffer = none ∨ t.pngBufferSize = 0
  · simp only [updateDisplay, if_pos hg]
  · simp only [updateDisplay, if_neg hg, freeBuffer]
    have : t.pngBuffer.isNone = false := by
      rcases h : t.pngBuffer with _ | n
      · exact absurd (Or.inl h) hg
      · rfl
    simp [this]

lemma enterLightSleep_not_deepSleep (a b : Bool) (s : DeviceState) :
    (enterLightSleep a b s).isDeepSleep = false := by
  unfold enterLightSleep
  split_ifs <;> rfl

/-! ## Claim theorems -/

/-- Claim C5: with the configured window start=0, end=5,
`isDeepSleepTime h` is true iff `0 ≤ h < 5`; and for any configured
window `[start, stop)` the generalised gate is true iff
`start ≤ h < stop`. (Proved without the `start < stop` restriction,
which subsumes the claim.) -/
theorem isDeepSleepTime_window (start stop h : Int) :
    (isDeepSleepTimeWith start stop h = true ↔ start ≤ h ∧ h < stop)
    ∧ (isDeepSleepTime h = true ↔ 0 ≤ h ∧ h < 5) := by
  constructor <;>
    simp [isDeepSleepTimeWith, isDeepSleepTime, DEEP_SLEEP_START_HOUR,
      DEEP_SLEEP_END_HOUR, ge_iff_le]

/-- Claim C6: on valid clock values, `getSecondsUntil5AM` equals
`(1440 - minutes elapsed since 5 AM) * 60` plus the fixed 120-second
buffer (so the buffer is always included), is monotonically
non-increasing as the wall clock advances toward 5:00 (wrapping across
midnight), and at hour 23 yields 6 hours to 5 AM minus the current
minutes plus the buffer. -/
theorem getSecondsUntil5AM_props :
    (∀ h m : Int, 0 ≤ h → h < 24 → 0 ≤ m → m < 60 →
      getSecondsUntil5AM h m = (1440 - minutesPast5AM h m) * 60 + 120)
    ∧ (∀ h1 m1 h2 m2 : Int, 0 ≤ h1 → h1 < 24 → 0 ≤ m1 → m1 < 60 →
        0 ≤ h2 → h2 < 24 → 0 ≤ m2 → m2 < 60 →
        minutesPast5AM h1 m1 ≤ minutesPast5AM h2 m2 →
        getSecondsUntil5AM h2 m2 ≤ getSecondsUntil5AM h1 m1)
    ∧ (∀ m : Int, 0 ≤ m → m < 60 →
        getSecondsUntil5AM 23 m = 6 * 3600 - m * 60 + 120) := by
  refine ⟨?_, ?_, ?_⟩
  · intro h m h0 h24 m0 m60
    simp only [getSecondsUntil5AM, minutesPast5AM, DEEP_SLEEP_END_HOUR]
    split_ifs <;> omega
  · intro h1 m1 h2 m2 ha hb hc hd he hf hg hh hadv
    simp only [minutesPast5AM] at hadv
    simp only [getSecondsUntil5AM, DEEP_SLEEP_END_HOUR]
    split_ifs at hadv ⊢ <;> omega
  · intro m m0 m60
    simp only [getSecondsUntil5AM, DEEP_SLEEP_END_HOUR]
    split_ifs <;> omega

/-- Witness for C6 at concrete clock values 02:30 against 03:00 and
23:30. -/
theorem getSecondsUntil5AM_props_witness :
    getSecondsUntil5AM 3 0 ≤ getSecondsUntil5AM 2 30
    ∧ getSecondsUntil5AM 23 30 = 6 * 3600 - 30 * 60 + 120 :=
  ⟨getSecondsUntil5AM_props.2.1 2 30 3 0 (by decide) (by decide) (by decide)
      (by decide) (by decide) (by decide) (by decide) (by decide) (by decide),
    getSecondsUntil5AM_props.2.2 30 (by decide) (by decide)⟩

/-- Claim C4 as stated is false: the code computes
`getSecondsUntil5AM(2,30) = 9120`, which differs from the claim's
intermediate expression `2*3600 - 30*60 + 120 = 5520`. -/
theorem getSecondsUntil5AM_0230_counterexample :
    getSecondsUntil5AM 2 30 ≠ 2 * 3600 - 30 * 60 + 120 := by decide

/-- Claim C4 (amended): waking at 02:30 with window [0,5), the gate is
true, the device computes `getSecondsUntil5AM(2,30) = (5-2)*3600 -
30*60 + 120 = 9120` seconds, and the cycle enters deep sleep for 9120
seconds with the display-state flags cleared. -/
theorem deepSleep_at_0230 :
    shouldEnterDeepSleep (some ⟨2, 30⟩) = true
    ∧ getSecondsUntil5AM 2 30 = 3 * 3600 - 30 * 60 + 120
    ∧ getSecondsUntil5AM 2 30 = 9120
    ∧ loopStep wake0230Env initialState =
        CycleEnd.deepSleep 9120
          { initialState with displayInitialized := false, timeInitialized := false } :=
  ⟨by decide, by decide, by decide, by decide⟩

/-- Claim C10: when the `getLocalTime` read backing the gate fails,
`shouldEnterDeepSleep` is false, the cycle never ends in deep sleep,
and the loop proceeds to the normal dashboard refresh followed by the
light-sleep transition. -/
theorem loopStep_noClock_noDeepSleep (env : CycleEnv) (s : DeviceState) :
    shouldEnterDeepSleep none = false
    ∧ (loopStep { env with timeRead1 := none } s).isDeepSleep = false
    ∧ loopStep { env with timeRead1 := none } s =
        enterLightSleep env.lightTimerArmOk env.lightSleepOk
          (refreshDashboard env.attempt1 env.attempt2
            (if env.refreshButtonEdge then
              (refreshDashboard env.buttonAttempt1 env.buttonAttempt2 s).2
            else s)).2 := by
  have h3 : loopStep { env with timeRead1 := none } s =
      enterLightSleep env.lightTimerArmOk env.lightSleepOk
        (refreshDashboard env.attempt1 env.attempt2
          (if env.refreshButtonEdge then
            (refreshDashboard env.buttonAttempt1 env.buttonAttempt2 s).2
          else s)).2 := rfl
  exact ⟨rfl, h3 ▸ enterLightSleep_not_deepSleep _ _ _, h3⟩

/-- Claim C9 as stated ("light or deep") is false for the deep-sleep
transition: with the timer-arming result failing, `enterDeepSleep`
still suspends (the source never checks the arming result) instead of
restarting. -/
theorem deepSleep_ignores_armFailure :
    (enterDeepSleep 9120 false initialState).isDeepSleep = true
    ∧ (enterDeepSleep 9120 false initialState).isRestart = false := by decide

/-- Claim C9 (amended): a timer-arming failure during the light-sleep
transition skips the suspend and restarts the device; during the
deep-sleep transition the arming result is not checked and the device
enters deep sleep regardless. -/
theorem sleepTimer_armFailure_behaviour (sleepOk : Bool) (sec : Int) (s : DeviceState) :
    enterLightSleep false sleepOk s = CycleEnd.restart s
    ∧ enterDeepSleep sec false s =
        CycleEnd.deepSleep sec
          { s with displayInitialized := false, timeInitialized := false } :=
  ⟨rfl, rfl⟩

/-- Claim C7: every deep-sleep transition clears `displayInitialized`
and `timeInitialized` before suspending, and no loop operation ever
raises `displayInitialized` (so the invariant that it is true only if
the panel was initialized since the last deep sleep or cold boot is
preserved: the conjunction below says the post-state flag can be true
only when the pre-state flag was). -/
theorem deepSleep_clears_flags (sec : Int) (armOk : Bool) (s t : DeviceState)
    (env : CycleEnv) :
    (enterDeepSleep sec armOk s).stateOf.displayInitialized = false
    ∧ (enterDeepSleep sec armOk s).stateOf.timeInitialized = false
    ∧ ((loopStep env t).stateOf.displayInitialized && !t.displayInitialized) = false := by
  refine ⟨rfl, rfl, ?_⟩
  have hs0 : (if env.refreshButtonEdge then
      (refreshDashboard env.buttonAttempt1 env.buttonAttempt2 t).2
      else t).displayInitialized = t.displayInitialized := by
    cases hbtn : env.refreshButtonEdge
    · rfl
    · simp [refreshDashboard_displayInitialized]
  by_cases hg : shouldEnterDeepSleep env.timeRead1 = true
  · rcases hr2 : env.timeRead2 with _ | t2
    · have hrun : loopStep env t =
          enterLightSleep env.lightTimerArmOk env.lightSleepOk
            (refreshDashboard env.attempt1 env.attempt2
              (if env.refreshButtonEdge then
                (refreshDashboard env.buttonAttempt1 env.buttonAttempt2 t).2
              else t)).2 := by
        simp [loopStep, hr2, hg]
      rw [hrun, enterLightSleep_stateOf, refreshDashboard_displayInitialized, hs0]
      exact Bool.and_not_self t.displayInitialized
    · have hrun : loopStep env t =
          enterDeepSleep (getSecondsUntil5AM t2.hour t2.minute) env.deepTimerArmOk
            (if env.refreshButtonEdge then
              (refreshDashboard env.buttonAttempt1 env.buttonAttempt2 t).2
            else t) := by
        simp [loopStep, hr2, hg]
      rw [hrun]
      simp [enterDeepSleep, CycleEnd.stateOf]
  · have hg' : shouldEnterDeepSleep env.timeRead1 = false := by
      cases hsd : shouldEnterDeepSleep env.timeRead1
      · rfl
      · exact absurd hsd hg
    have hrun : loopStep env t =
        enterLightSleep env.lightTimerArmOk env.lightSleepOk
          (refreshDashboard env.attempt1 env.attempt2
            (if env.refreshButtonEdge then
              (refreshDashboard env.buttonAttempt1 env.buttonAttempt2 t).2
            else t)).2 := by
      simp [loopStep, hg']
    rw [hrun, enterLightSleep_stateOf, refreshDashboard_displayInitialized, hs0]
    exact Bool.and_not_self t.displayInitialized

/-- Claim C8: starting a refresh attempt with an empty buffer, every
exit path of `refreshDashboard` ends with the buffer released (null
pointer, zero size) and no free of a null pointer ever performed; and
the release path `updateDisplay` is idempotent — a second invocation in
a row is a no-op and never frees an already-null buffer. -/
theorem bufferReleased_and_idempotent (e1 e2 : AttemptEnv) (s t : DeviceState)
    (p q : Bool) :
    ((refreshDashboard e1 e2
        { s with pngBuffer := none, pngBufferSize := 0, freedNullBuffer := false }).2.pngBuffer
        = none
      ∧ (refreshDashboard e1 e2
        { s with pngBuffer := none, pngBufferSize := 0, freedNullBuffer := false }).2.pngBufferSize
        = 0
      ∧ (refreshDashboard e1 e2
        { s with pngBuffer := none, pngBufferSize := 0, freedNullBuffer := false }).2.freedNullBuffer
        = false)
    ∧ updateDisplay q (updateDisplay p t) = updateDisplay p t
    ∧ (updateDisplay p t).freedNullBuffer = t.freedNullBuffer :=
  ⟨refreshDashboard_buffer e1 e2 _ rfl rfl rfl,
    updateDisplay_idem p q t, updateDisplay_freedNull p t⟩

/-- Claim C3 evaluated at its failing input: a cold boot at 14:00 with
a successful render light-sleeps; the next cycle — a light-sleep wake
inside the same power-on epoch — again renders with `some false`,
i.e. a full refresh, because no code path ever assigns
`displayInitialized = true` (contradicting the source's own comment
"Use partial refresh for light sleep wakes"). -/
theorem fullRefresh_always_used :
    (loopStep day1400Env initialState).isLightSleep = true
    ∧ (loopStep day1400Env initialState).stateOf.lastRenderUsedPartialRefresh = some false
    ∧ (loopStep day1400Env initialState).stateOf.displayInitialized = false
    ∧ (loopStep day1400Env ((loopStep day1400Env initialState).stateOf)).isLightSleep = true
    ∧ (loopStep day1400Env
        ((loopStep day1400Env initialState).stateOf)).stateOf.lastRenderUsedPartialRefresh
        = some false := by decide

/-- Claim C1: for a 200-status fetch with declared content length `n`:
`n ≤ 0` or `n > 150000` fails without touching the state and without
allocating; `0 < n ≤ 150000` with exactly `n` delivered bytes succeeds
with a buffer of exactly `n` bytes; a body truncated short of `n`
fails with the buffer released (null pointer, zero size). -/
theorem downloadPNG_contract (resp : HttpResponse) (s : DeviceState) :
    (resp.httpCode = HTTP_CODE_OK →
      resp.contentLength ≤ 0 ∨ resp.contentLength > 150000 →
      downloadPNG resp s = ⟨false, s, false⟩)
    ∧ (resp.httpCode = HTTP_CODE_OK → 0 < resp.contentLength →
        resp.contentLength ≤ 150000 → resp.mallocOk = true →
        (resp.delivered : Int) = resp.contentLength →
        (downloadPNG resp s).ok = true
        ∧ (downloadPNG resp s).state.pngBuffer = some resp.contentLength.toNat
        ∧ ((downloadPNG resp s).state.pngBufferSize : Int) = resp.contentLength)
    ∧ (resp.httpCode = HTTP_CODE_OK → 0 < resp.contentLength →
        resp.contentLength ≤ 150000 → resp.mallocOk = true →
        (resp.delivered : Int) < resp.contentLength →
        (downloadPNG resp s).ok = false
        ∧ (downloadPNG resp s).state.pngBuffer = none
        ∧ (downloadPNG resp s).state.pngBufferSize = 0) := by
  refine ⟨?_, ?_, ?_⟩
  · intro hcode hbad
    simp only [downloadPNG]
    split_ifs with hA hB hC hD <;> try rfl
    · simp only [Bool.or_eq_true, decide_eq_true_eq, not_or, not_le, not_lt] at hB
      omega
    · simp only [Bool.or_eq_true, decide_eq_true_eq, not_or, not_le, not_lt] at hB
      omega
  · intro hcode hpos hle hmalloc hexact
    simp only [downloadPNG]
    split_ifs with hA hB hC hD
    · exact absurd hcode hA
    · simp only [Bool.or_eq_true, decide_eq_true_eq] at hB
      omega
    · simp [hmalloc] at hC
    · exact absurd rfl (by omega : ¬ min resp.delivered resp.contentLength.toNat
        = min resp.delivered resp.contentLength.toNat)
    · refine ⟨rfl, rfl, ?_⟩
      simp only []
      omega
  · intro hcode hpos hle hmalloc hshort
    simp only [downloadPNG]
    split_ifs with hA hB hC hD
    · exact absurd hcode hA
    · simp only [Bool.or_eq_true, decide_eq_true_eq] at hB
      omega
    · simp [hmalloc] at hC
    · exact ⟨rfl, rfl, rfl⟩
    · omega

/-- Witness for C1: an oversized declared length is rejected without
allocation; a fully delivered 100-byte body succeeds with a 100-byte
buffer; a 60-of-100-byte truncated body fails with the buffer
released. -/
theorem downloadPNG_contract_witness :
    downloadPNG ⟨200, 200000, true, 200000⟩ initialState = ⟨false, initialState, false⟩
    ∧ (downloadPNG ⟨200, 100, true, 100⟩ initialState).ok = true
    ∧ (downloadPNG ⟨200, 100, true, 100⟩ initialState).state.pngBuffer = some 100
    ∧ (downloadPNG ⟨200, 100, true, 60⟩ initialState).ok = false
    ∧ (downloadPNG ⟨200, 100, true, 60⟩ initialState).state.pngBuffer = none :=
  ⟨(downloadPNG_contract ⟨200, 200000, true, 200000⟩ initialState).1 rfl
      (Or.inr (by decide)),
    ((downloadPNG_contract ⟨200, 100, true, 100⟩ initialState).2.1 rfl (by decide)
      (by decide) rfl (by decide)).1,
    ((downloadPNG_contract ⟨200, 100, true, 100⟩ initialState).2.1 rfl (by decide)
      (by decide) rfl (by decide)).2.1,
    ((downloadPNG_contract ⟨200, 100, true, 60⟩ initialState).2.2 rfl (by decide)
      (by decide) rfl (by decide)).1,
    ((downloadPNG_contract ⟨200, 100, true, 60⟩ initialState).2.2 rfl (by decide)
      (by decide) rfl (by decide)).2.1⟩

/-- Claim C2: for every bit depth in {1,2,4,8}, palette of RGB triples
(large enough for every index of that depth) and scanline of bytes, the
callback accepts the line and draws, for every column `x` below both
the line width and the panel width, the pixel `(x, y)` colored white
iff the luminosity `(299·R + 587·G + 114·B) / 1000` of the palette
triple selected by MSB-first bit packing exceeds 127, black otherwise —
clipped to the panel bounds (no draws at all for `y` off-panel). -/
theorem pngDrawCallback_spec (bpp : Nat) (pal : List (Nat × Nat × Nat))
    (pixels : List Nat) (width y : Nat)
    (hb : bpp = 1 ∨ bpp = 2 ∨ bpp = 4 ∨ bpp = 8)
    (hpal : 2 ^ bpp ≤ pal.length)
    (hpix : ∀ b ∈ pixels, b < 256) :
    (pngDrawCallback ⟨y, width, true, pixels, some (flattenPalette pal), bpp⟩).1 = 1
    ∧ (pngDrawCallback ⟨y, width, true, pixels, some (flattenPalette pal), bpp⟩).2 =
        (if y < DISPLAY_HEIGHT then
          (List.range (min width DISPLAY_WIDTH)).map (fun x =>
            { x := x, y := y, color := luminosityColor pal (msbFirstIndex bpp pixels x) })
        else []) := by
  constructor
  · rfl
  · simp only [pngDrawCallback, Bool.not_true, Bool.false_eq_true, if_false]
    by_cases hy : y < DISPLAY_HEIGHT
    · rw [if_pos hy]
      simp only [hy, if_true]
      rw [filterMap_some_eq_map]
      apply List.map_congr_left
      intro x hx
      have hcolor : pixelColor (some (flattenPalette pal)) (extractPaletteIndex bpp pixels x)
          = luminosityColor pal (msbFirstIndex bpp pixels x) := by
        rw [extractPaletteIndex_eq_msbFirst bpp pixels x hb hpix]
        have hlt : msbFirstIndex bpp pixels x < 2 ^ bpp := msbFirstIndex_lt bpp pixels x
        have h256 : msbFirstIndex bpp pixels x < 256 :=
          lt_of_lt_of_le hlt (by rcases hb with h | h | h | h <;> subst h <;> norm_num)
        have hplen : msbFirstIndex bpp pixels x < pal.length := lt_of_lt_of_le hlt hpal
        obtain ⟨hr, hg2, hb2⟩ := flattenPalette_getD pal (msbFirstIndex bpp pixels x) hplen
        simp only [pixelColor, if_pos h256, paletteColor, luminosityColor, hr, hg2, hb2]
        have harith :
            (pal.getD (msbFirstIndex bpp pixels x) (0, 0, 0)).1 * 299
              + (pal.getD (msbFirstIndex bpp pixels x) (0, 0, 0)).2.1 * 587
              + (pal.getD (msbFirstIndex bpp pixels x) (0, 0, 0)).2.2 * 114
            = 299 * (pal.getD (msbFirstIndex bpp pixels x) (0, 0, 0)).1
              + 587 * (pal.getD (msbFirstIndex bpp pixels x) (0, 0, 0)).2.1
              + 114 * (pal.getD (msbFirstIndex bpp pixels x) (0, 0, 0)).2.2 := by
          ring
        rw [harith]
      rw [hcolor]
    · rw [if_neg hy]
      simp only [hy, if_false]
      exact filterMap_none_eq_nil _

/-- Witness for C2: a 1-bit line `0b10101010` over a black/white
palette at row 0 is accepted and rendered. -/
theorem pngDrawCallback_spec_witness :
    (pngDrawCallback ⟨0, 8, true, [170],
        some (flattenPalette [(0, 0, 0), (255, 255, 255)]), 1⟩).1 = 1 :=
  (pngDrawCallback_spec 1 [(0, 0, 0), (255, 255, 255)] [170] 8 0
    (Or.inl rfl) (by decide) (by decide)).1
